import Mathlib

/-!
A shallow embedding of `budget_tracker.py`, a single-user command-line
budget tracker persisted in SQLite.  The five tables of the schema are
modelled as Lean lists of rows; SQL aggregate queries become list
operations; Python `float` amounts are modelled as rationals; SQL `NULL`
becomes `Option`.  Each menu operation's database-facing core is embedded
as a pure function from the database state (plus the user's already
validated inputs) to a new state or a result value.
-/

set_option autoImplicit false

namespace BudgetTracker

/-- A row of the `expense_categories` table:
`id INTEGER PRIMARY KEY, name TEXT NOT NULL UNIQUE, budget_limit REAL`
(`budget_limit` is nullable). -/
structure ExpenseCategory where
  id : Nat
  name : String
  budget_limit : Option ℚ
  deriving DecidableEq, Repr

/-- A row of the `income_categories` table:
`id INTEGER PRIMARY KEY, name TEXT NOT NULL UNIQUE`. -/
structure IncomeCategory where
  id : Nat
  name : String
  deriving DecidableEq, Repr

/-- A row of the `expenses` or `income` table:
`id, date TEXT, category_id INTEGER, description TEXT, amount REAL`. -/
structure TxRecord where
  id : Nat
  date : String
  category_id : Nat
  description : String
  amount : ℚ
  deriving DecidableEq, Repr

/-- A row of the `financial_goals` table:
`id, goal_amount REAL, target_date TEXT, category_id INTEGER` with
`category_id` nullable (a foreign key into `expense_categories`). -/
structure Goal where
  id : Nat
  goal_amount : ℚ
  target_date : String
  category_id : Option Nat
  deriving DecidableEq, Repr

/-- The whole persisted state: the five tables created by `create_tables`
(the `budgets` table exists in the schema but no operation ever reads or
writes it, so it carries no data the operations can observe; we keep the
four live tables plus goals). -/
structure DB where
  expense_categories : List ExpenseCategory
  income_categories : List IncomeCategory
  expenses : List TxRecord
  income : List TxRecord
  financial_goals : List Goal
  deriving DecidableEq, Repr

/-- SQL `SELECT SUM(x) FROM ...`: `NULL` on an empty row set, otherwise
the sum. -/
def sqlSum (l : List ℚ) : Option ℚ :=
  if l.isEmpty then none else some (l.foldl (· + ·) 0)

/-- Python `x if x else 0` applied to the result of a `SUM` query: both
`None` (SQL `NULL`) and `0.0` are falsy and collapse to `0`. -/
def pyOrZero (o : Option ℚ) : ℚ :=
  match o with
  | none => 0
  | some x => if x = 0 then 0 else x

/-- `SELECT SUM(amount) FROM expenses WHERE category_id = ?`. -/
def sumExpensesFor (db : DB) (cid : Nat) : Option ℚ :=
  sqlSum (((db.expenses.filter (fun r => r.category_id = cid)).map (fun r => r.amount)))

/-- The plain mathematical total of the expense amounts recorded against
category `cid` (the spec's "sum of amounts of all expense records
referencing that category", `0` when there are none). -/
def totalExpensesFor (db : DB) (cid : Nat) : ℚ :=
  ((db.expenses.filter (fun r => r.category_id = cid)).map (fun r => r.amount)).sum

/-- Outcome of one pass of `view_budget`'s inner loop for an entered
category id.  `view_budget` has no `try`/`except`, so an exception there
escapes the operation: `uncaughtTypeError` records the Python
`TypeError` raised by `set_budget - total_expenses` when the stored
`budget_limit` is `NULL` (`None - number` in Python). -/
inductive BudgetViewResult where
  /-- The entered id is not a listed category id: the loop prints a
  message and prompts again. -/
  | retry : BudgetViewResult
  /-- Budget overview printed: set budget, total expenses, remaining. -/
  | ok : ℚ → ℚ → ℚ → BudgetViewResult
  /-- An uncaught exception terminates the whole process. -/
  | uncaughtTypeError : BudgetViewResult
  deriving DecidableEq, Repr

/-- The body of `view_budget` (lines 941-976) for one entered category
id, after the initial fetch of all categories: validity check against
the fetched list, then
`SELECT budget_limit ...`, `SELECT SUM(amount) ...`,
`total_expenses = total_expenses if total_expenses else 0`,
`remaining_budget = set_budget - total_expenses`. -/
def view_budget_attempt (db : DB) (cid : Nat) : BudgetViewResult :=
  match db.expense_categories.find? (fun c => c.id = cid) with
  | none => .retry
  | some c =>
      let total_expenses := pyOrZero (sumExpensesFor db cid)
      match c.budget_limit with
      | none => .uncaughtTypeError
      | some set_budget => .ok set_budget total_expenses (set_budget - total_expenses)

/-- `SELECT MAX(id) FROM t` followed by Python's
`latest_id + 1 if latest_id is not None else 1`: the id assigned to a
newly inserted expense or income row. -/
def next_id (rows : List TxRecord) : Nat :=
  match (rows.map (fun r => r.id)).maximum with
  | none => 1
  | some m => m + 1

/-- The id SQLite assigns to a freshly inserted category row
(`INTEGER PRIMARY KEY AUTOINCREMENT`, read back through
`cursor.lastrowid`), modelled as one more than the largest id in the
table (1 when the table is empty). -/
def nextCategoryId (ids : List Nat) : Nat :=
  match ids.maximum with
  | none => 1
  | some m => m + 1

/-- The category-resolution step shared by `add_expense` and the update
path of `view_expenses`:
`SELECT id FROM expense_categories WHERE name = ?`; if absent,
`INSERT INTO expense_categories (name) VALUES (?)` and use the new row's
id, else use the found id.  Returns the updated table and the id. -/
def resolveExpenseCategory (cats : List ExpenseCategory) (category_name : String) :
    List ExpenseCategory × Nat :=
  match cats.find? (fun c => c.name = category_name) with
  | some c => (cats, c.id)
  | none =>
      let category_id := nextCategoryId (cats.map (fun c => c.id))
      (cats ++ [⟨category_id, category_name, none⟩], category_id)

/-- Category resolution for the income namespace (`add_income`,
`view_income` update path), over `income_categories`. -/
def resolveIncomeCategory (cats : List IncomeCategory) (category_name : String) :
    List IncomeCategory × Nat :=
  match cats.find? (fun c => c.name = category_name) with
  | some c => (cats, c.id)
  | none =>
      let category_id := nextCategoryId (cats.map (fun c => c.id))
      (cats ++ [⟨category_id, category_name⟩], category_id)

/-- The insert step of `add_expense` (lines 170-208), after the date,
category name, description and amount have been read and validated:
resolve/create the category, compute the next id, insert the row.
Returns the new state and the id given to the inserted expense. -/
def add_expense_insert (db : DB) (date category_name description : String) (amount : ℚ) :
    DB × Nat :=
  let (cats, category_id) := resolveExpenseCategory db.expense_categories category_name
  let db := { db with expense_categories := cats }
  let new_id := next_id db.expenses
  ({ db with expenses := db.expenses ++ [⟨new_id, date, category_id, description, amount⟩] },
   new_id)

/-- `add_expense` when the user answers `yes` at the confirmation
prompt: the inserted row stays. -/
def add_expense_confirm (db : DB) (date category_name description : String) (amount : ℚ) :
    DB :=
  (add_expense_insert db date category_name description amount).1

/-- `add_expense` when the user answers `no` at the confirmation prompt
(lines 217-222): `DELETE FROM expenses WHERE id=?` with the id that was
just inserted.  Nothing else is undone. -/
def add_expense_decline (db : DB) (date category_name description : String) (amount : ℚ) :
    DB :=
  let (db1, new_id) := add_expense_insert db date category_name description amount
  { db1 with expenses := db1.expenses.filter (fun r => ¬ r.id = new_id) }

/-- The insert step of `add_income` (lines 533-570), mirror image of
`add_expense_insert` over the `income` table and namespace. -/
def add_income_insert (db : DB) (date category_name description : String) (amount : ℚ) :
    DB × Nat :=
  let (cats, category_id) := resolveIncomeCategory db.income_categories category_name
  let db := { db with income_categories := cats }
  let new_id := next_id db.income
  ({ db with income := db.income ++ [⟨new_id, date, category_id, description, amount⟩] },
   new_id)

/-- `add_income` when the user confirms. -/
def add_income_confirm (db : DB) (date category_name description : String) (amount : ℚ) :
    DB :=
  (add_income_insert db date category_name description amount).1

/-- `UPDATE t SET date = ? WHERE id = ?`. -/
def sqlUpdateDate (rows : List TxRecord) (rid : Nat) (d : String) : List TxRecord :=
  rows.map (fun r => if r.id = rid then { r with date := d } else r)

/-- `UPDATE t SET category_id = ? WHERE id = ?`. -/
def sqlUpdateCategoryId (rows : List TxRecord) (rid : Nat) (cid : Nat) : List TxRecord :=
  rows.map (fun r => if r.id = rid then { r with category_id := cid } else r)

/-- `UPDATE t SET description = ? WHERE id = ?`. -/
def sqlUpdateDescription (rows : List TxRecord) (rid : Nat) (s : String) : List TxRecord :=
  rows.map (fun r => if r.id = rid then { r with description := s } else r)

/-- `UPDATE t SET amount = ? WHERE id = ?`. -/
def sqlUpdateAmount (rows : List TxRecord) (rid : Nat) (a : ℚ) : List TxRecord :=
  rows.map (fun r => if r.id = rid then { r with amount := a } else r)

/-- The update path of `view_expenses` (lines 301-372) once an existing
expense id has been selected: each of the four fields is updated only
when the user typed something for it (Python truthiness of the raw
input; `none` here models the empty input that keeps the current
value).  A supplied category name is resolved/created first. -/
def update_expense (db : DB) (expense_id : Nat)
    (new_date new_category new_description : Option String) (new_amount : Option ℚ) : DB :=
  let db1 := match new_date with
    | some d => { db with expenses := sqlUpdateDate db.expenses expense_id d }
    | none => db
  let db2 := match new_category with
    | some cn =>
        let (cats, category_id) := resolveExpenseCategory db1.expense_categories cn
        { db1 with expense_categories := cats,
                   expenses := sqlUpdateCategoryId db1.expenses expense_id category_id }
    | none => db1
  let db3 := match new_description with
    | some s => { db2 with expenses := sqlUpdateDescription db2.expenses expense_id s }
    | none => db2
  match new_amount with
  | some a => { db3 with expenses := sqlUpdateAmount db3.expenses expense_id a }
  | none => db3

/-- The update path of `view_income` (lines 662-732), mirror image of
`update_expense` over the `income` table and namespace. -/
def update_income (db : DB) (income_id : Nat)
    (new_date new_category new_description : Option String) (new_amount : Option ℚ) : DB :=
  let db1 := match new_date with
    | some d => { db with income := sqlUpdateDate db.income income_id d }
    | none => db
  let db2 := match new_category with
    | some cn =>
        let (cats, category_id) := resolveIncomeCategory db1.income_categories cn
        { db1 with income_categories := cats,
                   income := sqlUpdateCategoryId db1.income income_id category_id }
    | none => db1
  let db3 := match new_description with
    | some s => { db2 with income := sqlUpdateDescription db2.income income_id s }
    | none => db2
  match new_amount with
  | some a => { db3 with income := sqlUpdateAmount db3.income income_id a }
  | none => db3

/-- The budget-limit prompt loop of `set_budget` (lines 895-903): each
input is either unparseable (`none`, Python `float` raises
`ValueError`) or a number; a non-positive number raises
`ValueError("Budget limit must be a positive number.")`.  Both are
caught, a message is printed and the loop re-prompts.  The first
positive number is returned; `none` means no input in the list was ever
accepted (in the program the loop would still be prompting). -/
def promptBudgetLimit : List (Option ℚ) → Option ℚ
  | [] => none
  | o :: rest =>
      match o with
      | none => promptBudgetLimit rest
      | some x => if x ≤ 0 then promptBudgetLimit rest else some x

/-- `set_budget` (lines 853-915): abort when there are no categories or
the entered category id is not present (the code prints a message and
returns without writing); otherwise loop on the amount inputs and, once
a positive limit is accepted,
`UPDATE expense_categories SET budget_limit = ? WHERE id = ?`. -/
def set_budget (db : DB) (category_id : Nat) (amount_inputs : List (Option ℚ)) : DB :=
  if db.expense_categories.isEmpty then db
  else if (db.expense_categories.find? (fun c => c.id = category_id)).isNone then db
  else
    match promptBudgetLimit amount_inputs with
    | none => db
    | some budget_limit =>
        { db with expense_categories :=
            (db.expense_categories.map (fun c =>
              if c.id = category_id then { c with budget_limit := some budget_limit }
              else c)) }

/-- The category label of a goal as displayed by `view_goals_progress`:
the `LEFT JOIN` yields the expense category's name or SQL `NULL`, and
Python's `category_name if category_name else "General"` collapses both
`None` and the empty string to `"General"`. -/
def goalCategoryDisplay (db : DB) (g : Goal) : String :=
  let category_name : Option String :=
    g.category_id.bind (fun cid =>
      (db.expense_categories.find? (fun c => c.id = cid)).map (fun c => c.name))
  match category_name with
  | none => "General"
  | some n => if n = "" then "General" else n

/-- `SELECT SUM(amount) FROM income JOIN income_categories ON
income.category_id = income_categories.id WHERE income_categories.name
= ?`: the multiset of joined amounts (one copy per matching category
row). -/
def incomeJoinAmounts (db : DB) (category_name : String) : List ℚ :=
  db.income.flatMap (fun r =>
    (db.income_categories.filter
        (fun c => r.category_id = c.id ∧ c.name = category_name)).map
      (fun _ => r.amount))

/-- The mirror-image joined query over `expenses` and
`expense_categories`. -/
def expenseJoinAmounts (db : DB) (category_name : String) : List ℚ :=
  db.expenses.flatMap (fun r =>
    (db.expense_categories.filter
        (fun c => r.category_id = c.id ∧ c.name = category_name)).map
      (fun _ => r.amount))

/-- What `view_goals_progress` prints for one goal. -/
structure GoalReport where
  progress : ℚ
  remaining : ℚ
  progress_percentage : ℚ
  achieved : Bool
  deriving DecidableEq, Repr

/-- The per-goal body of `view_goals_progress` (lines 1073-1117):
category label via the `LEFT JOIN`, then either the unscoped sums (the
`"General"` branch) or the name-scoped joined sums; each `SUM` result
passes through Python's `... or 0`; then
`remaining = goal_amount - progress`,
`progress_percentage = (progress / goal_amount) * 100 if goal_amount !=
0 else 0`, and the congratulation message exactly when
`remaining < 0`. -/
def view_goal_progress (db : DB) (g : Goal) : GoalReport :=
  let category_name := goalCategoryDisplay db g
  let progress :=
    if category_name = "General" then
      let total_income := pyOrZero (sqlSum (db.income.map (fun r => r.amount)))
      let total_expenses := pyOrZero (sqlSum (db.expenses.map (fun r => r.amount)))
      total_income - total_expenses
    else
      let total_income := pyOrZero (sqlSum (incomeJoinAmounts db category_name))
      let total_expenses := pyOrZero (sqlSum (expenseJoinAmounts db category_name))
      total_income - total_expenses
  let remaining := g.goal_amount - progress
  let progress_percentage := if g.goal_amount ≠ 0 then progress / g.goal_amount * 100 else 0
  ⟨progress, remaining, progress_percentage, decide (remaining < 0)⟩

/-- Spec-side description of the income side of a scoped goal: the sum
of the amounts of the income records whose own (income-namespace)
category carries the given name. -/
def specScopedIncome (db : DB) (category_name : String) : ℚ :=
  ((db.income.filter (fun r =>
      (db.income_categories.find? (fun c => c.id = r.category_id)).map
        (fun c => c.name) = some category_name)).map (fun r => r.amount)).sum

/-- Spec-side description of the expense side of a scoped goal. -/
def specScopedExpense (db : DB) (category_name : String) : ℚ :=
  ((db.expenses.filter (fun r =>
      (db.expense_categories.find? (fun c => c.id = r.category_id)).map
        (fun c => c.name) = some category_name)).map (fun r => r.amount)).sum

/-- The number of categories of the expense namespace carrying a given
name. -/
def countNamedExpenseCat (cats : List ExpenseCategory) (n : String) : Nat :=
  (cats.filter (fun c => c.name = n)).length

/-- The number of categories of the income namespace carrying a given
name. -/
def countNamedIncomeCat (cats : List IncomeCategory) (n : String) : Nat :=
  (cats.filter (fun c => c.name = n)).length

/-! ## Helper lemmas -/

/-- Python's falsy-collapse of a `SUM` query result is just the plain
sum of the summed column. -/
lemma pyOrZero_sqlSum (l : List ℚ) : pyOrZero (sqlSum l) = l.sum := by
  have hs : List.foldl (· + ·) 0 l = l.sum := List.sum_eq_foldl.symm
  by_cases h : l.isEmpty
  · rw [List.isEmpty_iff] at h
    subst h
    rfl
  · have hsome : sqlSum l = some (List.foldl (· + ·) 0 l) := by simp [sqlSum, h]
    rw [hsome]
    unfold pyOrZero
    dsimp only
    split
    · rename_i h0
      rw [← hs]
      exact h0.symm
    · exact hs

/-- `pyOrZero_sqlSum` specialised to the per-category expense query. -/
lemma pyOrZero_sumExpensesFor (db : DB) (cid : Nat) :
    pyOrZero (sumExpensesFor db cid) = totalExpensesFor db cid := by
  unfold sumExpensesFor totalExpensesFor
  exact pyOrZero_sqlSum _

/-- Every id already present in the table is strictly below the id the
insert step assigns next. -/
lemma id_lt_next_id (rows : List TxRecord) (r : TxRecord) (hr : r ∈ rows) :
    r.id < next_id rows := by
  unfold next_id
  have hmem : r.id ∈ rows.map (fun x => x.id) := List.mem_map_of_mem _ hr
  cases hmax : (rows.map (fun x => x.id)).maximum with
  | bot =>
      have : rows.map (fun x => x.id) = [] := List.maximum_eq_none.mp hmax
      rw [this] at hmem
      cases hmem
  | coe m =>
      have hle : r.id ≤ m := List.le_maximum_of_mem hmem hmax
      show r.id < m + 1
      omega

/-- If every element of the input list is unparseable or non-positive,
the budget-limit prompt loop never accepts a value. -/
lemma promptBudgetLimit_eq_none (l : List (Option ℚ))
    (h : ∀ o ∈ l, ∀ q : ℚ, o = some q → q ≤ 0) :
    promptBudgetLimit l = none := by
  induction l with
  | nil => rfl
  | cons o rest ih =>
      have hrest : ∀ o ∈ rest, ∀ q : ℚ, o = some q → q ≤ 0 :=
        fun o ho q hq => h o (List.mem_cons_of_mem _ ho) q hq
      cases o with
      | none => exact ih hrest
      | some q =>
          have hq : q ≤ 0 := h (some q) (List.mem_cons_self _ _) q rfl
          simpa [promptBudgetLimit, hq] using ih hrest

/-! ## Claim theorems -/

/-- C1: the claim that no menu operation can terminate the process by
an uncaught exception is violated by the code: `view_budget`, run on a
state holding one expense category whose stored `budget_limit` is SQL
`NULL`, with the user selecting that category, reaches
`set_budget - total_expenses` with `set_budget = None` and raises a
`TypeError` that no handler in `view_budget` or `main` catches, so the
process dies instead of returning to the menu. -/
theorem view_budget_process_crash :
    view_budget_attempt ⟨[⟨1, "entertainment", none⟩], [], [], [], []⟩ 1
      = BudgetViewResult.uncaughtTypeError := by decide

/-- C2: for a category with no stored limit, `view_budget` does not
report a validation failure: on a state with categories `food` (limit
100) and `travel` (no limit) and one expense, selecting `travel` makes
the operation end in the uncaught `TypeError` of
`None - total_expenses`, not in a message to the user. -/
theorem view_budget_no_limit_type_error :
    view_budget_attempt
      ⟨[⟨1, "food", some 100⟩, ⟨2, "travel", none⟩], [],
        [⟨1, "2024-05-01", 1, "taxi", 30⟩], [], []⟩ 2
      = BudgetViewResult.uncaughtTypeError := by decide

/-- C3: for a category whose stored limit is `L`, `view_budget` prints
the triple `(L, T, L - T)` where `T` is the sum of the amounts of the
expense records referencing the category (`0` when there are none). -/
theorem view_budget_ok (db : DB) (cid : Nat) (c : ExpenseCategory) (L : ℚ)
    (hc : db.expense_categories.find? (fun x => x.id = cid) = some c)
    (hl : c.budget_limit = some L) :
    view_budget_attempt db cid =
      BudgetViewResult.ok L (totalExpensesFor db cid) (L - totalExpensesFor db cid) := by
  unfold view_budget_attempt
  rw [hc]
  dsimp only
  rw [hl]
  dsimp only
  rw [pyOrZero_sumExpensesFor]

/-- The scenario of the spec's budget example: a category `food` with
limit 100, three expenses of 10, 20 and 30 added to it through the
`add_expense` path. -/
def demoBudgetDb : DB :=
  add_expense_confirm
    (add_expense_confirm
      (add_expense_confirm ⟨[⟨1, "food", some 100⟩], [], [], [], []⟩
        "2024-01-01" "food" "groceries" 10)
      "2024-01-02" "food" "snacks" 20)
    "2024-01-03" "food" "dinner" 30

/-- Witness for C3: after adding expenses 10, 20 and 30 to the `food`
category with limit 100, `view_budget` reports total 60 and remaining
40. -/
theorem view_budget_ok_witness :
    view_budget_attempt demoBudgetDb 1 = BudgetViewResult.ok 100 60 40 := by
  have h := view_budget_ok demoBudgetDb 1 ⟨1, "food", some 100⟩ 100 (by decide) rfl
  rw [h]
  have ht : totalExpensesFor demoBudgetDb 1 = 60 := by
    norm_num [totalExpensesFor, demoBudgetDb, add_expense_confirm, add_expense_insert,
      resolveExpenseCategory, next_id, List.find?, List.filter, List.maximum,
      List.argmax, List.foldl]
  rw [ht]
  norm_num

/-- C5: while every amount the user offers to `set_budget` is
unparseable or non-positive, the operation performs no write (every
stored `budget_limit` is exactly as before), and each non-positive
amount makes the loop re-prompt (it continues with the remaining
inputs). -/
theorem set_budget_nonpositive_preserves (db : DB) (category_id : Nat)
    (amount_inputs : List (Option ℚ))
    (h : ∀ o ∈ amount_inputs, ∀ q : ℚ, o = some q → q ≤ 0) :
    set_budget db category_id amount_inputs = db ∧
    ∀ (a : ℚ) (rest : List (Option ℚ)), a ≤ 0 →
      promptBudgetLimit (some a :: rest) = promptBudgetLimit rest := by
  constructor
  · have hp : promptBudgetLimit amount_inputs = none := promptBudgetLimit_eq_none _ h
    unfold set_budget
    rw [hp]
    split_ifs <;> rfl
  · intro a rest ha
    simp [promptBudgetLimit, ha]

/-- The characterisation of the next-id computation: 1 on an empty
table, otherwise one more than an id that is present and dominates every
id in the table. -/
lemma next_id_spec (rows : List TxRecord) :
    (rows = [] → next_id rows = 1) ∧
    (rows ≠ [] → ∃ m, m ∈ rows.map (fun r => r.id) ∧
      (∀ i ∈ rows.map (fun r => r.id), i ≤ m) ∧ next_id rows = m + 1) := by
  constructor
  · intro h
    subst h
    rfl
  · intro h
    have hne : rows.map (fun r => r.id) ≠ [] := by simpa using h
    cases hmax : (rows.map (fun r => r.id)).maximum with
    | bot => exact absurd (List.maximum_eq_none.mp hmax) hne
    | coe m =>
        refine ⟨m, List.maximum_mem hmax, fun i hi => List.le_maximum_of_mem hi hmax, ?_⟩
        unfold next_id
        rw [hmax]

/-- When no expense category carries the name, resolution appends
exactly one new row with that name. -/
lemma resolveExpenseCategory_new (cats : List ExpenseCategory) (n : String)
    (h : countNamedExpenseCat cats n = 0) :
    (resolveExpenseCategory cats n).1
      = cats ++ [⟨nextCategoryId (cats.map (fun c => c.id)), n, none⟩] := by
  have hnil : cats.filter (fun c => c.name = n) = [] := by
    unfold countNamedExpenseCat at h
    exact List.length_eq_zero.mp h
  have hfind : cats.find? (fun c => c.name = n) = none := by
    rw [List.find?_eq_none]
    intro c hc hcn
    have : c ∈ cats.filter (fun c => c.name = n) := List.mem_filter.mpr ⟨hc, hcn⟩
    rw [hnil] at this
    cases this
  unfold resolveExpenseCategory
  rw [hfind]

/-- When some expense category carries the name, resolution leaves the
table untouched. -/
lemma resolveExpenseCategory_found (cats : List ExpenseCategory) (n : String)
    (h : ∃ c ∈ cats, c.name = n) :
    (resolveExpenseCategory cats n).1 = cats := by
  unfold resolveExpenseCategory
  cases hf : cats.find? (fun c => c.name = n) with
  | none =>
      rw [List.find?_eq_none] at hf
      obtain ⟨c, hc, hn⟩ := h
      exact absurd (by simpa using hn) (hf c hc)
  | some c => rfl

/-- Income-namespace version of `resolveExpenseCategory_new`. -/
lemma resolveIncomeCategory_new (cats : List IncomeCategory) (n : String)
    (h : countNamedIncomeCat cats n = 0) :
    (resolveIncomeCategory cats n).1
      = cats ++ [⟨nextCategoryId (cats.map (fun c => c.id)), n⟩] := by
  have hnil : cats.filter (fun c => c.name = n) = [] := by
    unfold countNamedIncomeCat at h
    exact List.length_eq_zero.mp h
  have hfind : cats.find? (fun c => c.name = n) = none := by
    rw [List.find?_eq_none]
    intro c hc hcn
    have : c ∈ cats.filter (fun c => c.name = n) := List.mem_filter.mpr ⟨hc, hcn⟩
    rw [hnil] at this
    cases this
  unfold resolveIncomeCategory
  rw [hfind]

/-- Income-namespace version of `resolveExpenseCategory_found`. -/
lemma resolveIncomeCategory_found (cats : List IncomeCategory) (n : String)
    (h : ∃ c ∈ cats, c.name = n) :
    (resolveIncomeCategory cats n).1 = cats := by
  unfold resolveIncomeCategory
  cases hf : cats.find? (fun c => c.name = n) with
  | none =>
      rw [List.find?_eq_none] at hf
      obtain ⟨c, hc, hn⟩ := h
      exact absurd (by simpa using hn) (hf c hc)
  | some c => rfl

/-- Appending a row named `n` raises the count of categories named `n`
by one. -/
lemma countNamedExpenseCat_append (cats : List ExpenseCategory) (n : String) (cid : Nat)
    (ob : Option ℚ) :
    countNamedExpenseCat (cats ++ [⟨cid, n, ob⟩]) n = countNamedExpenseCat cats n + 1 := by
  unfold countNamedExpenseCat
  rw [List.filter_append]
  simp

/-- Income-namespace version of `countNamedExpenseCat_append`. -/
lemma countNamedIncomeCat_append (cats : List IncomeCategory) (n : String) (cid : Nat) :
    countNamedIncomeCat (cats ++ [⟨cid, n⟩]) n = countNamedIncomeCat cats n + 1 := by
  unfold countNamedIncomeCat
  rw [List.filter_append]
  simp

/-- The categories table an `add_expense` leaves behind is exactly the
resolution step's output. -/
lemma add_expense_confirm_categories (db : DB) (d n de : String) (a : ℚ) :
    (add_expense_confirm db d n de a).expense_categories
      = (resolveExpenseCategory db.expense_categories n).1 := rfl

/-- Income-namespace version of `add_expense_confirm_categories`. -/
lemma add_income_confirm_categories (db : DB) (d n de : String) (a : ℚ) :
    (add_income_confirm db d n de a).income_categories
      = (resolveIncomeCategory db.income_categories n).1 := rfl

/-- Witness for C5: offering `-5` (then nothing parseable) to
`set_budget` on a category whose limit is 50 leaves the limit at 50. -/
theorem set_budget_nonpositive_preserves_witness :
    set_budget ⟨[⟨1, "food", some 50⟩], [], [], [], []⟩ 1 [some (-5), none]
      = ⟨[⟨1, "food", some 50⟩], [], [], [], []⟩ := by
  refine (set_budget_nonpositive_preserves _ 1 [some (-5), none] ?_).1
  intro o ho q hq
  simp only [List.mem_cons, List.not_mem_nil, or_false] at ho
  rcases ho with rfl | rfl
  · rw [Option.some_inj] at hq
    rw [← hq]
    norm_num
  · cases hq

/-- C7: the insert step of `add_expense` / `add_income` gives the new
row the id 1 when its table is empty and otherwise one more than the
maximal id in the table, and appends exactly the row carrying that
id. -/
theorem add_record_assigns_next_id (db : DB) (date cname desc : String) (amount : ℚ) :
    ((db.expenses = [] → (add_expense_insert db date cname desc amount).2 = 1) ∧
     (db.expenses ≠ [] → ∃ m, m ∈ db.expenses.map (fun r => r.id) ∧
        (∀ i ∈ db.expenses.map (fun r => r.id), i ≤ m) ∧
        (add_expense_insert db date cname desc amount).2 = m + 1) ∧
     (add_expense_insert db date cname desc amount).1.expenses
        = db.expenses ++ [⟨(add_expense_insert db date cname desc amount).2, date,
            (resolveExpenseCategory db.expense_categories cname).2, desc, amount⟩]) ∧
    ((db.income = [] → (add_income_insert db date cname desc amount).2 = 1) ∧
     (db.income ≠ [] → ∃ m, m ∈ db.income.map (fun r => r.id) ∧
        (∀ i ∈ db.income.map (fun r => r.id), i ≤ m) ∧
        (add_income_insert db date cname desc amount).2 = m + 1) ∧
     (add_income_insert db date cname desc amount).1.income
        = db.income ++ [⟨(add_income_insert db date cname desc amount).2, date,
            (resolveIncomeCategory db.income_categories cname).2, desc, amount⟩]) := by
  have he : (add_expense_insert db date cname desc amount).2 = next_id db.expenses := rfl
  have hi : (add_income_insert db date cname desc amount).2 = next_id db.income := rfl
  refine ⟨⟨fun h => by rw [he]; exact (next_id_spec db.expenses).1 h, ?_, rfl⟩,
          ⟨fun h => by rw [hi]; exact (next_id_spec db.income).1 h, ?_, rfl⟩⟩
  · intro h
    obtain ⟨m, hm, hle, hnext⟩ := (next_id_spec db.expenses).2 h
    exact ⟨m, hm, hle, by rw [he]; exact hnext⟩
  · intro h
    obtain ⟨m, hm, hle, hnext⟩ := (next_id_spec db.income).2 h
    exact ⟨m, hm, hle, by rw [hi]; exact hnext⟩

/-- A table with two expenses of ids 3 and 7 and no income rows. -/
def demoNextIdDb : DB :=
  ⟨[⟨1, "food", none⟩], [],
   [⟨3, "2024-01-01", 1, "a", 10⟩, ⟨7, "2024-01-02", 1, "b", 20⟩], [], []⟩

/-- Witness for C7: on expense ids {3, 7} the next expense gets id 8,
and on an empty income table the first income gets id 1. -/
theorem add_record_assigns_next_id_witness :
    (∃ m, m ∈ demoNextIdDb.expenses.map (fun r => r.id) ∧
       (∀ i ∈ demoNextIdDb.expenses.map (fun r => r.id), i ≤ m) ∧
       (add_expense_insert demoNextIdDb "2024-01-05" "food" "x" 5).2 = m + 1) ∧
    (add_expense_insert demoNextIdDb "2024-01-05" "food" "x" 5).2 = 8 ∧
    (add_income_insert demoNextIdDb "2024-01-05" "salary" "y" 5).2 = 1 := by
  refine ⟨(add_record_assigns_next_id demoNextIdDb "2024-01-05" "food" "x" 5).1.2.1
            (by decide), by decide, ?_⟩
  exact (add_record_assigns_next_id demoNextIdDb "2024-01-05" "salary" "y" 5).2.1 rfl

/-- C8: adding a record under a category name absent from its
namespace creates exactly one new category row (the count of rows of
that name goes from 0 to 1 and the table grows by one row), and a
second add under the same name changes the categories table not at
all — category resolution is idempotent.  Both namespaces behave the
same way. -/
theorem add_record_category_idempotent (db : DB) (n d1 d2 de1 de2 : String) (a1 a2 : ℚ)
    (hE : countNamedExpenseCat db.expense_categories n = 0)
    (hI : countNamedIncomeCat db.income_categories n = 0) :
    (countNamedExpenseCat (add_expense_confirm db d1 n de1 a1).expense_categories n = 1 ∧
     (add_expense_confirm db d1 n de1 a1).expense_categories.length
        = db.expense_categories.length + 1 ∧
     (add_expense_confirm (add_expense_confirm db d1 n de1 a1) d2 n de2 a2).expense_categories
        = (add_expense_confirm db d1 n de1 a1).expense_categories ∧
     countNamedExpenseCat
        (add_expense_confirm (add_expense_confirm db d1 n de1 a1) d2 n de2 a2).expense_categories
        n = 1) ∧
    (countNamedIncomeCat (add_income_confirm db d1 n de1 a1).income_categories n = 1 ∧
     (add_income_confirm db d1 n de1 a1).income_categories.length
        = db.income_categories.length + 1 ∧
     (add_income_confirm (add_income_confirm db d1 n de1 a1) d2 n de2 a2).income_categories
        = (add_income_confirm db d1 n de1 a1).income_categories ∧
     countNamedIncomeCat
        (add_income_confirm (add_income_confirm db d1 n de1 a1) d2 n de2 a2).income_categories
        n = 1) := by
  have hE1 : (add_expense_confirm db d1 n de1 a1).expense_categories
      = db.expense_categories
        ++ [⟨nextCategoryId (db.expense_categories.map (fun c => c.id)), n, none⟩] := by
    rw [add_expense_confirm_categories]
    exact resolveExpenseCategory_new _ _ hE
  have hcE : countNamedExpenseCat (add_expense_confirm db d1 n de1 a1).expense_categories n
      = 1 := by
    rw [hE1, countNamedExpenseCat_append, hE]
  have hE2 : (add_expense_confirm (add_expense_confirm db d1 n de1 a1) d2 n de2
        a2).expense_categories
      = (add_expense_confirm db d1 n de1 a1).expense_categories := by
    rw [add_expense_confirm_categories]
    refine resolveExpenseCategory_found _ _ ?_
    exact ⟨_, by rw [hE1]; exact List.mem_append_right _ (List.mem_singleton_self _), rfl⟩
  have hI1 : (add_income_confirm db d1 n de1 a1).income_categories
      = db.income_categories
        ++ [⟨nextCategoryId (db.income_categories.map (fun c => c.id)), n⟩] := by
    rw [add_income_confirm_categories]
    exact resolveIncomeCategory_new _ _ hI
  have hcI : countNamedIncomeCat (add_income_confirm db d1 n de1 a1).income_categories n
      = 1 := by
    rw [hI1, countNamedIncomeCat_append, hI]
  have hI2 : (add_income_confirm (add_income_confirm db d1 n de1 a1) d2 n de2
        a2).income_categories
      = (add_income_confirm db d1 n de1 a1).income_categories := by
    rw [add_income_confirm_categories]
    refine resolveIncomeCategory_found _ _ ?_
    exact ⟨_, by rw [hI1]; exact List.mem_append_right _ (List.mem_singleton_self _), rfl⟩
  refine ⟨⟨hcE, by rw [hE1]; simp, hE2, by rw [hE2]; exact hcE⟩,
          ⟨hcI, by rw [hI1]; simp, hI2, by rw [hI2]; exact hcI⟩⟩

/-- Witness for C8: starting from empty tables, adding two `gym`
expenses (and two `salary` incomes) leaves exactly one category of each
name. -/
theorem add_record_category_idempotent_witness :
    countNamedExpenseCat
      (add_expense_confirm
        (add_expense_confirm ⟨[], [], [], [], []⟩ "2024-01-01" "gym" "visit" 9)
        "2024-01-02" "gym" "visit" 9).expense_categories "gym" = 1 ∧
    countNamedIncomeCat
      (add_income_confirm
        (add_income_confirm ⟨[], [], [], [], []⟩ "2024-01-01" "salary" "jan" 9)
        "2024-01-02" "salary" "jan" 9).income_categories "salary" = 1 := by
  have h1 := add_record_category_idempotent ⟨[], [], [], [], []⟩ "gym" "2024-01-01"
    "2024-01-02" "visit" "visit" 9 9 rfl rfl
  have h2 := add_record_category_idempotent ⟨[], [], [], [], []⟩ "salary" "2024-01-01"
    "2024-01-02" "jan" "jan" 9 9 rfl rfl
  exact ⟨h1.1.2.2.2, h2.2.2.2.2⟩

/-- C10: when the user declines the confirmation at the end of
`add_expense`, exactly the just-inserted expense row is removed (the
expenses table is restored verbatim) while every other table keeps the
state it had after the insert step — in particular a category
auto-created during the same call survives. -/
theorem add_expense_decline_frame (db : DB) (date cname desc : String) (amount : ℚ) :
    (add_expense_decline db date cname desc amount).expenses = db.expenses ∧
    (add_expense_decline db date cname desc amount).expense_categories
      = (resolveExpenseCategory db.expense_categories cname).1 ∧
    (add_expense_decline db date cname desc amount).income = db.income ∧
    (add_expense_decline db date cname desc amount).income_categories
      = db.income_categories ∧
    (add_expense_decline db date cname desc amount).financial_goals
      = db.financial_goals ∧
    (countNamedExpenseCat db.expense_categories cname = 0 →
      countNamedExpenseCat
        (add_expense_decline db date cname desc amount).expense_categories cname = 1) := by
  have hexp : (add_expense_decline db date cname desc amount).expenses
      = ((db.expenses
          ++ ([⟨next_id db.expenses, date,
                (resolveExpenseCategory db.expense_categories cname).2, desc, amount⟩]
              : List TxRecord)).filter
          (fun r => ¬ r.id = next_id db.expenses)) := rfl
  have hcats : (add_expense_decline db date cname desc amount).expense_categories
      = (resolveExpenseCategory db.expense_categories cname).1 := rfl
  refine ⟨?_, hcats, rfl, rfl, rfl, ?_⟩
  · rw [hexp, List.filter_append]
    have h1 : db.expenses.filter (fun r => ¬ r.id = next_id db.expenses) = db.expenses := by
      rw [List.filter_eq_self]
      intro r hr
      simpa using Nat.ne_of_lt (id_lt_next_id db.expenses r hr)
    have h2 : ([⟨next_id db.expenses, date,
          (resolveExpenseCategory db.expense_categories cname).2, desc, amount⟩]
            : List TxRecord).filter (fun r => ¬ r.id = next_id db.expenses) = [] := by
      simp
    rw [h1, h2, List.append_nil]
  · intro h0
    rw [hcats, resolveExpenseCategory_new _ _ h0, countNamedExpenseCat_append, h0]

/-- A state with one `food` category and one expense, used to run the
declined-add scenario. -/
def demoDeclineDb : DB :=
  ⟨[⟨1, "food", some 100⟩], [], [⟨1, "2024-01-01", 1, "bread", 10⟩], [], []⟩

/-- Witness for C10: declining the add of a `gym` expense leaves the
expenses exactly as before while the auto-created `gym` category
remains. -/
theorem add_expense_decline_frame_witness :
    (add_expense_decline demoDeclineDb "2024-01-05" "gym" "membership" 25).expenses
      = demoDeclineDb.expenses ∧
    countNamedExpenseCat
      (add_expense_decline demoDeclineDb "2024-01-05" "gym" "membership"
        25).expense_categories "gym" = 1 := by
  refine ⟨(add_expense_decline_frame demoDeclineDb "2024-01-05" "gym" "membership" 25).1,
    (add_expense_decline_frame demoDeclineDb "2024-01-05" "gym" "membership"
      25).2.2.2.2.2 (by decide)⟩

/-- The row-level effect of `update_expense`: the expenses table is
mapped pointwise; the selected row takes each supplied field and keeps
each unsupplied one, every other row is untouched. -/
lemma update_expense_expenses (db : DB) (eid : Nat) (nd nc ndesc : Option String)
    (na : Option ℚ) :
    (update_expense db eid nd nc ndesc na).expenses
      = db.expenses.map (fun r =>
          if r.id = eid then
            { r with
              date := nd.getD r.date,
              category_id :=
                (match nc with
                 | none => r.category_id
                 | some cn => (resolveExpenseCategory db.expense_categories cn).2),
              description := ndesc.getD r.description,
              amount := na.getD r.amount }
          else r) := by
  cases nd <;> cases nc <;> cases ndesc <;> cases na <;>
    · simp only [update_expense, sqlUpdateDate, sqlUpdateCategoryId, sqlUpdateDescription,
        sqlUpdateAmount, List.map_map]
      first
      | (refine List.map_congr_left (fun r _ => ?_)
         by_cases hid : r.id = eid <;> simp [hid, Function.comp])
      | simp

/-- The tables other than `expenses` after `update_expense`: only the
expense categories can change, and only through the resolution of a
supplied category name. -/
lemma update_expense_other_tables (db : DB) (eid : Nat) (nd nc ndesc : Option String)
    (na : Option ℚ) :
    (update_expense db eid nd nc ndesc na).expense_categories
      = (match nc with
         | none => db.expense_categories
         | some cn => (resolveExpenseCategory db.expense_categories cn).1) ∧
    (update_expense db eid nd nc ndesc na).income = db.income ∧
    (update_expense db eid nd nc ndesc na).income_categories = db.income_categories ∧
    (update_expense db eid nd nc ndesc na).financial_goals = db.financial_goals := by
  cases nd <;> cases nc <;> cases ndesc <;> cases na <;>
    exact ⟨rfl, rfl, rfl, rfl⟩

/-- Income-table version of `update_expense_expenses`. -/
lemma update_income_income (db : DB) (iid : Nat) (nd nc ndesc : Option String)
    (na : Option ℚ) :
    (update_income db iid nd nc ndesc na).income
      = db.income.map (fun r =>
          if r.id = iid then
            { r with
              date := nd.getD r.date,
              category_id :=
                (match nc with
                 | none => r.category_id
                 | some cn => (resolveIncomeCategory db.income_categories cn).2),
              description := ndesc.getD r.description,
              amount := na.getD r.amount }
          else r) := by
  cases nd <;> cases nc <;> cases ndesc <;> cases na <;>
    · simp only [update_income, sqlUpdateDate, sqlUpdateCategoryId, sqlUpdateDescription,
        sqlUpdateAmount, List.map_map]
      first
      | (refine List.map_congr_left (fun r _ => ?_)
         by_cases hid : r.id = iid <;> simp [hid, Function.comp])
      | simp

/-- Income-table version of `update_expense_other_tables`. -/
lemma update_income_other_tables (db : DB) (iid : Nat) (nd nc ndesc : Option String)
    (na : Option ℚ) :
    (update_income db iid nd nc ndesc na).income_categories
      = (match nc with
         | none => db.income_categories
         | some cn => (resolveIncomeCategory db.income_categories cn).1) ∧
    (update_income db iid nd nc ndesc na).expenses = db.expenses ∧
    (update_income db iid nd nc ndesc na).expense_categories = db.expense_categories ∧
    (update_income db iid nd nc ndesc na).financial_goals = db.financial_goals := by
  cases nd <;> cases nc <;> cases ndesc <;> cases na <;>
    exact ⟨rfl, rfl, rfl, rfl⟩

/-- A list is pointwise related to its image under a map. -/
lemma forall₂_map_self {α : Type} (l : List α) (f : α → α) (P : α → α → Prop)
    (h : ∀ x ∈ l, P x (f x)) : List.Forall₂ P l (l.map f) := by
  induction l with
  | nil => exact List.Forall₂.nil
  | cons a t ih =>
      exact List.Forall₂.cons (h a (List.mem_cons_self a t))
        (ih (fun x hx => h x (List.mem_cons_of_mem _ hx)))

/-- Relates a row to its updated version: the id survives, a row with a
different id is untouched, and every field whose input was empty keeps
its prior value. -/
def KeepsUnsuppliedFields (rid : Nat) (nd nc ndesc : Option String) (na : Option ℚ)
    (r r' : TxRecord) : Prop :=
  r'.id = r.id ∧
  (r.id ≠ rid → r' = r) ∧
  (nd = none → r'.date = r.date) ∧
  (nc = none → r'.category_id = r.category_id) ∧
  (ndesc = none → r'.description = r.description) ∧
  (na = none → r'.amount = r.amount)

/-- C6: the update paths of `view_expenses` and `view_income` apply
only the supplied fields: row ids survive, rows with another id and
fields left empty keep their prior values, and a description-only
update rewrites exactly the description of the selected row, leaving
every other row and every other table of the database unchanged. -/
theorem update_record_partial_fields (db : DB) (rid : Nat)
    (nd nc ndesc : Option String) (na : Option ℚ) (s : String) :
    List.Forall₂ (KeepsUnsuppliedFields rid nd nc ndesc na)
      db.expenses (update_expense db rid nd nc ndesc na).expenses ∧
    List.Forall₂ (KeepsUnsuppliedFields rid nd nc ndesc na)
      db.income (update_income db rid nd nc ndesc na).income ∧
    ((update_expense db rid none none (some s) none).expenses
        = db.expenses.map
            (fun r => if r.id = rid then { r with description := s } else r) ∧
     (update_expense db rid none none (some s) none).expense_categories
        = db.expense_categories ∧
     (update_expense db rid none none (some s) none).income = db.income ∧
     (update_expense db rid none none (some s) none).income_categories
        = db.income_categories ∧
     (update_expense db rid none none (some s) none).financial_goals
        = db.financial_goals) ∧
    ((update_income db rid none none (some s) none).income
        = db.income.map
            (fun r => if r.id = rid then { r with description := s } else r) ∧
     (update_income db rid none none (some s) none).income_categories
        = db.income_categories ∧
     (update_income db rid none none (some s) none).expenses = db.expenses ∧
     (update_income db rid none none (some s) none).expense_categories
        = db.expense_categories ∧
     (update_income db rid none none (some s) none).financial_goals
        = db.financial_goals) := by
  refine ⟨?_, ?_, ⟨?_, ?_, ?_, ?_, ?_⟩, ⟨?_, ?_, ?_, ?_, ?_⟩⟩
  · rw [update_expense_expenses db rid nd nc ndesc na]
    refine forall₂_map_self _ _ _ (fun r hr => ?_)
    by_cases hid : r.id = rid
    · rw [if_pos hid]
      refine ⟨rfl, fun h => absurd hid h, fun h => ?_, fun h => ?_, fun h => ?_,
        fun h => ?_⟩ <;> (subst h; rfl)
    · rw [if_neg hid]
      exact ⟨rfl, fun _ => rfl, fun _ => rfl, fun _ => rfl, fun _ => rfl, fun _ => rfl⟩
  · rw [update_income_income db rid nd nc ndesc na]
    refine forall₂_map_self _ _ _ (fun r hr => ?_)
    by_cases hid : r.id = rid
    · rw [if_pos hid]
      refine ⟨rfl, fun h => absurd hid h, fun h => ?_, fun h => ?_, fun h => ?_,
        fun h => ?_⟩ <;> (subst h; rfl)
    · rw [if_neg hid]
      exact ⟨rfl, fun _ => rfl, fun _ => rfl, fun _ => rfl, fun _ => rfl, fun _ => rfl⟩
  · simpa using update_expense_expenses db rid none none (some s) none
  · exact (update_expense_other_tables db rid none none (some s) none).1
  · exact (update_expense_other_tables db rid none none (some s) none).2.1
  · exact (update_expense_other_tables db rid none none (some s) none).2.2.1
  · exact (update_expense_other_tables db rid none none (some s) none).2.2.2
  · simpa using update_income_income db rid none none (some s) none
  · exact (update_income_other_tables db rid none none (some s) none).1
  · exact (update_income_other_tables db rid none none (some s) none).2.1
  · exact (update_income_other_tables db rid none none (some s) none).2.2.1
  · exact (update_income_other_tables db rid none none (some s) none).2.2.2

/-- A two-expense state for the description-only round-trip. -/
def demoUpdateDb : DB :=
  ⟨[⟨1, "food", some 100⟩], [⟨1, "salary"⟩],
   [⟨1, "2024-01-01", 1, "bread", 10⟩, ⟨2, "2024-01-02", 1, "milk", 12⟩],
   [⟨1, "2024-01-03", 1, "jan pay", 900⟩], []⟩

/-- Witness for C6: changing only the description of expense 1 to
`rolls` keeps its date, category and amount, keeps expense 2 verbatim
and leaves the category table alone. -/
theorem update_record_partial_fields_witness :
    (update_expense demoUpdateDb 1 none none (some "rolls") none).expenses
      = [⟨1, "2024-01-01", 1, "rolls", 10⟩, ⟨2, "2024-01-02", 1, "milk", 12⟩] ∧
    (update_expense demoUpdateDb 1 none none (some "rolls") none).expense_categories
      = demoUpdateDb.expense_categories := by
  have h := update_record_partial_fields demoUpdateDb 1 none none (some "rolls") none "rolls"
  refine ⟨?_, h.2.2.1.2.1⟩
  rw [h.2.2.1.1]
  decide

/-- The progress field of a goal report, spelled out. -/
lemma view_goal_progress_progress (db : DB) (g : Goal) :
    (view_goal_progress db g).progress
      = if goalCategoryDisplay db g = "General"
        then pyOrZero (sqlSum (db.income.map (fun r => r.amount)))
              - pyOrZero (sqlSum (db.expenses.map (fun r => r.amount)))
        else pyOrZero (sqlSum (incomeJoinAmounts db (goalCategoryDisplay db g)))
              - pyOrZero (sqlSum (expenseJoinAmounts db (goalCategoryDisplay db g))) := rfl

/-- The percentage field of a goal report, spelled out. -/
lemma view_goal_progress_pct (db : DB) (g : Goal) :
    (view_goal_progress db g).progress_percentage
      = if g.goal_amount ≠ 0
        then (view_goal_progress db g).progress / g.goal_amount * 100
        else 0 := rfl

/-- C4: for every stored goal, `view_goals_progress` computes
`remaining = goal_amount - progress`; reports achievement exactly when
`remaining < 0` (so not when `remaining = 0`); guards the percentage to
`0` when the goal amount is `0` and otherwise uses
`progress / goal_amount * 100`; and computes progress as total income
minus total expenses, unscoped when the displayed category is
`"General"` (in particular whenever `category_id` is null) and scoped
through the name-joined sums otherwise. -/
theorem view_goal_progress_spec (db : DB) (g : Goal) :
    (view_goal_progress db g).remaining
      = g.goal_amount - (view_goal_progress db g).progress ∧
    ((view_goal_progress db g).achieved = true ↔ (view_goal_progress db g).remaining < 0) ∧
    ((view_goal_progress db g).remaining = 0 → (view_goal_progress db g).achieved = false) ∧
    (g.goal_amount = 0 → (view_goal_progress db g).progress_percentage = 0) ∧
    (g.goal_amount ≠ 0 → (view_goal_progress db g).progress_percentage
        = (view_goal_progress db g).progress / g.goal_amount * 100) ∧
    (goalCategoryDisplay db g = "General" →
      (view_goal_progress db g).progress
        = (db.income.map (fun r => r.amount)).sum
            - (db.expenses.map (fun r => r.amount)).sum) ∧
    (goalCategoryDisplay db g ≠ "General" →
      (view_goal_progress db g).progress
        = (incomeJoinAmounts db (goalCategoryDisplay db g)).sum
            - (expenseJoinAmounts db (goalCategoryDisplay db g)).sum) ∧
    (g.category_id = none → goalCategoryDisplay db g = "General") := by
  refine ⟨rfl, decide_eq_true_iff, ?_, ?_, ?_, ?_, ?_, ?_⟩
  · intro h0
    have hnot : ¬ ((view_goal_progress db g).remaining < 0) := by
      rw [h0]
      exact lt_irrefl 0
    exact decide_eq_false hnot
  · intro h0
    rw [view_goal_progress_pct, if_neg (not_not_intro h0)]
  · intro h0
    rw [view_goal_progress_pct, if_pos h0]
  · intro hG
    rw [view_goal_progress_progress, if_pos hG, pyOrZero_sqlSum, pyOrZero_sqlSum]
  · intro hG
    rw [view_goal_progress_progress, if_neg hG, pyOrZero_sqlSum, pyOrZero_sqlSum]
  · intro h
    unfold goalCategoryDisplay
    rw [h]
    rfl

/-- The spec's goal example: total income 1500, total expenses 400, one
unscoped goal of 1000. -/
def demoGoalDb : DB :=
  ⟨[⟨1, "rent", none⟩], [⟨1, "salary"⟩],
   [⟨1, "2024-02-01", 1, "rent feb", 400⟩],
   [⟨1, "2024-01-15", 1, "jan salary", 1500⟩],
   [⟨1, 1000, "2025-01-01", none⟩]⟩

/-- Witness for C4: the goal of 1000 with category `"General"`, income
1500 and expenses 400 reports progress 1100, remaining −100, percentage
110 and achievement. -/
theorem view_goal_progress_spec_witness :
    view_goal_progress demoGoalDb ⟨1, 1000, "2025-01-01", none⟩
      = ⟨1100, -100, 110, true⟩ ∧
    goalCategoryDisplay demoGoalDb ⟨1, 1000, "2025-01-01", none⟩ = "General" := by
  refine ⟨?_, (view_goal_progress_spec demoGoalDb
    ⟨1, 1000, "2025-01-01", none⟩).2.2.2.2.2.2.2 rfl⟩
  norm_num [view_goal_progress, goalCategoryDisplay, demoGoalDb, pyOrZero, sqlSum,
    List.foldl, GoalReport.mk.injEq]

/-- One row's contribution to a name-scoped join: when the category ids
are duplicate-free, the joined copies of the row's amount sum to the
amount exactly when the row's own category carries the name, and to 0
otherwise. -/
lemma join_filter_sum {α : Type} (cats : List α) (cid : α → Nat) (cname : α → String)
    (rid : Nat) (n : String) (amt : ℚ)
    (h : (cats.map cid).Nodup) :
    ((cats.filter (fun c => rid = cid c ∧ cname c = n)).map (fun _ => amt)).sum
      = if (cats.find? (fun c => cid c = rid)).map cname = some n then amt else 0 := by
  induction cats with
  | nil => simp
  | cons c t ih =>
      have hsplit : (t.map cid).Nodup ∧ cid c ∉ t.map cid := by
        rw [List.map_cons, List.nodup_cons] at h
        exact ⟨h.2, h.1⟩
      by_cases hc : cid c = rid
      · have hfind : ((c :: t).find? (fun x => cid x = rid)) = some c :=
          List.find?_cons_of_pos _ (decide_eq_true hc)
        have htail : t.filter (fun x => rid = cid x ∧ cname x = n) = [] := by
          rw [List.filter_eq_nil_iff]
          intro x hx hpx
          have hxid : rid = cid x := (of_decide_eq_true hpx).1
          exact hsplit.2 (by
            rw [hc, hxid]
            exact List.mem_map_of_mem cid hx)
        rw [hfind]
        simp only [List.filter_cons]
        by_cases hname : cname c = n
        · rw [if_pos (decide_eq_true ⟨hc.symm, hname⟩), htail]
          simp [hname]
        · rw [if_neg (by simpa using fun hh : rid = cid c ∧ cname c = n => hname hh.2), htail]
          simp [hname]
      · have hfind : ((c :: t).find? (fun x => cid x = rid))
            = t.find? (fun x => cid x = rid) :=
          List.find?_cons_of_neg _ (by simpa using hc)
        rw [hfind]
        simp only [List.filter_cons]
        rw [if_neg (by simpa using fun hh : rid = cid c ∧ cname c = n => hc hh.1.symm)]
        exact ih hsplit.1

/-- Summing a name-scoped SQL join equals summing the rows whose own
category carries the name, provided category ids are duplicate-free. -/
lemma joined_sum_eq_spec (rows : List TxRecord) {α : Type} (cats : List α)
    (cid : α → Nat) (cname : α → String) (n : String)
    (h : (cats.map cid).Nodup) :
    (rows.flatMap (fun r =>
        (cats.filter (fun c => r.category_id = cid c ∧ cname c = n)).map
          (fun _ => r.amount))).sum
      = ((rows.filter (fun r =>
            (cats.find? (fun c => cid c = r.category_id)).map cname = some n)).map
          (fun r => r.amount)).sum := by
  induction rows with
  | nil => rfl
  | cons r t ih =>
      rw [List.flatMap_cons, List.sum_append, ih,
        join_filter_sum cats cid cname r.category_id n r.amount h]
      by_cases hm : (cats.find? (fun c => cid c = r.category_id)).map cname = some n
      · rw [if_pos hm]
        simp only [List.filter_cons]
        rw [if_pos (decide_eq_true hm), List.map_cons, List.sum_cons]
      · rw [if_neg hm]
        simp only [List.filter_cons]
        rw [if_neg (by simpa using hm), zero_add]

/-- The income side of a scoped goal, as computed by the SQL join,
equals the spec-side sum over income records categorised under the
name. -/
lemma incomeJoinAmounts_sum (db : DB) (n : String)
    (h : (db.income_categories.map (fun c => c.id)).Nodup) :
    (incomeJoinAmounts db n).sum = specScopedIncome db n := by
  unfold incomeJoinAmounts specScopedIncome
  exact joined_sum_eq_spec db.income db.income_categories
    (fun c => c.id) (fun c => c.name) n h

/-- Expense-side version of `incomeJoinAmounts_sum`. -/
lemma expenseJoinAmounts_sum (db : DB) (n : String)
    (h : (db.expense_categories.map (fun c => c.id)).Nodup) :
    (expenseJoinAmounts db n).sum = specScopedExpense db n := by
  unfold expenseJoinAmounts specScopedExpense
  exact joined_sum_eq_spec db.expenses db.expense_categories
    (fun c => c.id) (fun c => c.name) n h

/-- When no income category carries the name, the spec-side scoped
income sum is 0. -/
lemma specScopedIncome_eq_zero (db : DB) (n : String)
    (h : ∀ ic ∈ db.income_categories, ic.name ≠ n) :
    specScopedIncome db n = 0 := by
  unfold specScopedIncome
  have hnil : db.income.filter (fun r =>
      (db.income_categories.find? (fun c => c.id = r.category_id)).map
        (fun c => c.name) = some n) = [] := by
    rw [List.filter_eq_nil_iff]
    intro r hr hpr
    have hpr' : (db.income_categories.find? (fun c => c.id = r.category_id)).map
        (fun c => c.name) = some n := of_decide_eq_true hpr
    cases hf : db.income_categories.find? (fun c => c.id = r.category_id) with
    | none => rw [hf] at hpr'; cases hpr'
    | some c =>
        rw [hf] at hpr'
        have hcn : c.name = n := by simpa using hpr'
        exact h c (List.mem_of_find?_eq_some hf) hcn
  rw [hnil]
  rfl

/-- C9: for a goal scoped to an expense category, the income side of
its progress is the sum of the income records whose income-namespace
category carries the same name as the goal's expense category; when no
income category of that name exists, the income side is 0 and progress
degenerates to minus the expense side. -/
theorem goal_scoped_income_by_name (db : DB) (g : Goal) (cid0 : Nat)
    (c : ExpenseCategory)
    (hg : g.category_id = some cid0)
    (hc : db.expense_categories.find? (fun x => x.id = cid0) = some c)
    (hnG : c.name ≠ "General") (hne : c.name ≠ "")
    (hI : (db.income_categories.map (fun x => x.id)).Nodup)
    (hE : (db.expense_categories.map (fun x => x.id)).Nodup) :
    (view_goal_progress db g).progress
      = specScopedIncome db c.name - specScopedExpense db c.name ∧
    ((∀ ic ∈ db.income_categories, ic.name ≠ c.name) →
      specScopedIncome db c.name = 0 ∧
      (view_goal_progress db g).progress = 0 - specScopedExpense db c.name) := by
  have hdisp : goalCategoryDisplay db g = c.name := by
    unfold goalCategoryDisplay
    rw [hg]
    simp [hc, hne]
  have hmain : (view_goal_progress db g).progress
      = specScopedIncome db c.name - specScopedExpense db c.name := by
    rw [view_goal_progress_progress, hdisp, if_neg hnG, pyOrZero_sqlSum, pyOrZero_sqlSum,
      incomeJoinAmounts_sum db c.name hI, expenseJoinAmounts_sum db c.name hE]
  refine ⟨hmain, fun hno => ?_⟩
  have h0 := specScopedIncome_eq_zero db c.name hno
  exact ⟨h0, by rw [hmain, h0]⟩

/-- A goal scoped to the expense category `bike`, while the only income
category is `salary`: the goal's income side must be 0 even though
income exists. -/
def demoScopedDb : DB :=
  ⟨[⟨1, "bike", none⟩], [⟨1, "salary"⟩],
   [⟨1, "2024-03-01", 1, "tyre", 200⟩],
   [⟨1, "2024-03-02", 1, "pay", 500⟩],
   [⟨1, 300, "2025-01-01", some 1⟩]⟩

/-- Witness for C9: with no income category named `bike`, the `bike`
goal's income side is 0 and its progress is minus the `bike`
expenses. -/
theorem goal_scoped_income_by_name_witness :
    (view_goal_progress demoScopedDb ⟨1, 300, "2025-01-01", some 1⟩).progress
      = specScopedIncome demoScopedDb "bike" - specScopedExpense demoScopedDb "bike" ∧
    specScopedIncome demoScopedDb "bike" = 0 ∧
    (view_goal_progress demoScopedDb ⟨1, 300, "2025-01-01", some 1⟩).progress
      = 0 - specScopedExpense demoScopedDb "bike" := by
  have h := goal_scoped_income_by_name demoScopedDb ⟨1, 300, "2025-01-01", some 1⟩ 1
    ⟨1, "bike", none⟩ rfl (by decide) (by decide) (by decide) (by decide) (by decide)
  have h2 := h.2 (by decide)
  exact ⟨h.1, h2.1, h2.2⟩

end BudgetTracker
